import Mathlib

/-!
Shallow embedding of `src/main.py` (predictor-destilacion), a Streamlit page
that loads a serialized regression model and, on a button press, builds a
one-row pandas DataFrame from three slider values and displays the model's
prediction.

Modelling choices:
* A pandas DataFrame built from a dict of singleton lists is a list of named
  columns in insertion order (`Column`).
* The opaque predictor handle (`model.predict`) is a function from the input
  frame to `Except String (List ℚ)`: `Except.error e` models the inference
  call raising an exception whose rendered message is `e`, `Except.ok vs`
  models it returning the sequence `vs`.
* `joblib.load` is a parameter `String → JoblibResult`: it can return a
  model, raise `FileNotFoundError`, or raise any other exception (the
  deserialization-failure case) carrying its rendered message.
* Streamlit display calls (`st.error`, `st.warning`, `st.success`,
  `st.subheader`, `st.info`) are recorded as a list of `Msg` values; a Python
  exception escaping a block is `Except.error`.
* CPython's `f"{x:.2f}"` fixed-point rendering is `pyFormat2f`, rounding the
  scalar to hundredths and printing sign, integer part, a dot and two digit
  characters (tie-breaking differs from binary-float half-even rounding, which
  no claim depends on).
-/

/-- One column of the pandas DataFrame built at lines 85-89 of `main.py`:
a column name and the list of cell values. -/
structure Column where
  name : String
  values : List Int
  deriving DecidableEq, Repr

/-- The opaque predictor handle: its single `predict` operation maps the
input frame to either a raised exception (rendered message) or a returned
sequence of scalars. -/
def Model : Type := List Column → Except String (List ℚ)

/-- A Streamlit display call recorded by the embedding. -/
inductive Msg where
  | subheader (s : String)
  | success (s : String)
  | info (s : String)
  | warning (s : String)
  | error (s : String)
  deriving DecidableEq, Repr

/-- Outcome of `joblib.load(model_path)` at line 21: a deserialized model,
a raised `FileNotFoundError`, or any other raised exception (for example a
deserialization failure on a corrupt file) with its rendered message. -/
inductive JoblibResult where
  | ok (m : Model)
  | fileNotFound
  | raiseOther (msg : String)

/-- The fixed artifact path passed at line 28 of `main.py`. -/
def modelPath : String := "model.joblib"

/-- The `st.error` text of line 24 for a missing artifact. -/
def fileNotFoundMsg (model_path : String) : String :=
  "Error: No se encontró el archivo del modelo en " ++ model_path ++
    ". Asegúrate de que el archivo del modelo esté en el directorio correcto."

/-- Lines 18-25 of `main.py`: `load_model` calls `joblib.load` inside
`try ... except FileNotFoundError`. A found model is returned; a
`FileNotFoundError` is caught, an error message is displayed and `None` is
returned; any other exception is not caught and escapes (`Except.error`). -/
def load_model (joblibLoad : String → JoblibResult) (model_path : String) :
    Except String (Option Model × List Msg) :=
  match joblibLoad model_path with
  | JoblibResult.ok m => Except.ok (some m, [])
  | JoblibResult.fileNotFound =>
      Except.ok (none, [Msg.error (fileNotFoundMsg model_path)])
  | JoblibResult.raiseOther msg => Except.error msg

/-- Column name bound to the pressure slider at line 86. -/
def pressureCol : String := "PressureC1_diff"

/-- Column name bound to the flow-rate slider at line 87. -/
def flowCol : String := "FlowC1"

/-- Column name bound to the temperature slider at line 88. -/
def tempCol : String := "Temp1"

/-- Lines 85-89: `pd.DataFrame({'PressureC1_diff': [pressure], 'FlowC1':
[flowrate], 'Temp1': [temperature]})` — a one-row frame whose columns, in
dict insertion order, carry the three slider values unmodified. -/
def df_input (pressure flowrate temperature : Int) : List Column :=
  [⟨pressureCol, [pressure]⟩, ⟨flowCol, [flowrate]⟩, ⟨tempCol, [temperature]⟩]

/-- CPython rendering of `f"{q:.2f}"`: round to hundredths, print sign,
integer part, a dot and exactly two digit characters. -/
def pyFormat2f (q : ℚ) : String :=
  let n : Int := round (q * 100)
  let a : Nat := n.natAbs
  ((if n < 0 then "-" else "") ++ toString (a / 100) ++ ".") ++
    String.mk [Nat.digitChar (a / 10 % 10), Nat.digitChar (a % 10)]

/-- The markdown head of the `st.success` string at line 96. -/
def successHead : String := "**Rendimiento Predicho:** `"

/-- The tail of the `st.success` string at line 96: the percent sign and the
closing backtick. -/
def percentTail : String := "%`"

/-- Line 96: the full `st.success` text for a predicted scalar `v`. -/
def successMsg (v : ℚ) : String :=
  successHead ++ pyFormat2f v ++ percentTail

/-- The `st.subheader` text of line 94. -/
def resultHeader : String := "📈 Resultado de la Predicción"

/-- The `st.info` text of line 97. -/
def infoText : String :=
  "Este valor representa el porcentaje estimado del producto deseado que se recuperará."

/-- The fixed head of the `st.error` text at line 99. -/
def predErrHead : String := "Ocurrió un error durante la predicción: "

/-- The rendered message of the `IndexError` numpy raises when
`prediction_value[0]` indexes an empty result sequence at line 96. -/
def indexErrorMsg : String := "index 0 is out of bounds for axis 0 with size 0"

/-- The `st.warning` text of line 101, shown when the model is absent. -/
def noModelWarning : String :=
  "El modelo no pudo ser cargado. Por favor, verifica la ruta del archivo del modelo."

/-- Lines 92-99 of `main.py`: the `try` block calls `model.predict(df_input)`,
shows the subheader, then formats element 0 of the result into the success
box and shows the info box; `except Exception as e` converts any exception
raised inside the block (the inference call itself, or the indexing of an
empty result) into a single `st.error` message carrying the cause. -/
def tryPredict (m : Model) (df : List Column) : List Msg :=
  match m df with
  | Except.error e => [Msg.error (predErrHead ++ e)]
  | Except.ok vals =>
    match vals.get? 0 with
    | none => [Msg.subheader resultHeader, Msg.error (predErrHead ++ indexErrorMsg)]
    | some v => [Msg.subheader resultHeader, Msg.success (successMsg v), Msg.info infoText]

/-- Lines 80-101 of `main.py`: if the model loaded (`model is not None`) and
the predict button is pressed, run the guarded prediction block on the frame
built from the three sliders; if the model is absent, show the warning and
never touch a predictor. -/
def predictionFlow (model : Option Model) (buttonPressed : Bool)
    (pressure flowrate temperature : Int) : List Msg :=
  match model with
  | some m =>
      if buttonPressed then tryPredict m (df_input pressure flowrate temperature)
      else []
  | none => [Msg.warning noModelWarning]

/-- `@st.cache_resource` semantics (line 17): a process-lifetime single-entry
cache over the decorated function. On a hit the cached value is returned; on
a miss the function runs once and its value is stored. The Boolean reports
whether the underlying function actually ran. -/
def cachedCall {α : Type} (f : String → α) (path : String) :
    Option α → α × Option α × Bool
  | some r => (r, some r, false)
  | none => (f path, some (f path), true)

/-- `n` successive requests for the cached resource, threading the cache:
returns the list of returned values, the final cache, and how many times the
underlying function ran. -/
def runLoads {α : Type} (f : String → α) (path : String) :
    Nat → Option α → List α × Option α × Nat
  | 0, c => ([], c, 0)
  | Nat.succ k, c =>
      let r := cachedCall f path c
      let rest := runLoads f path k r.2.1
      (r.1 :: rest.1, rest.2.1, (if r.2.2 then 1 else 0) + rest.2.2)

/-- The per-invocation session step: an invocation appends its display output
to the session log and returns that output; it reads nothing but the handle
and the three inputs. -/
structure Session where
  log : List Msg
  deriving DecidableEq, Repr

/-- Run one button-press invocation against the session. -/
def runInvocation (model : Option Model) (p f t : Int) (s : Session) :
    Session × List Msg :=
  let out := predictionFlow model true p f t
  (⟨s.log ++ out⟩, out)

/-- A loader state in which the artifact file exists but deserialization
fails with this rendered cause. -/
def corruptCause : String := "UnpicklingError: could not deserialize the artifact"

/-- A filesystem in which `joblib.load` finds the artifact but fails to
deserialize it, whatever the path. -/
def corruptLoader : String → JoblibResult :=
  fun _ => JoblibResult.raiseOther corruptCause

/-- A filesystem in which the artifact file is absent. -/
def missingLoader : String → JoblibResult :=
  fun _ => JoblibResult.fileNotFound

/-- A concrete predictor whose inference call raises. -/
def inferenceFault : String := "feature_names mismatch"

/-- A predictor handle whose inference call always raises `inferenceFault`. -/
def failModel : Model := fun _ => Except.error inferenceFault

/-- A predictor handle that always returns the singleton sequence [85.3]. -/
def constModel : Model := fun _ => Except.ok [(853 : ℚ) / 10]

/-- A predictor handle that returns the empty sequence. -/
def emptyModel : Model := fun _ => Except.ok []

theorem digitChar_isDigit : ∀ n : Nat, n < 10 → (Nat.digitChar n).isDigit := by
  decide

/-- `pyFormat2f` always renders with a dot followed by exactly two digit
characters. -/
theorem pyFormat2f_shape (q : ℚ) :
    ∃ intStr d₁ d₂, pyFormat2f q = intStr ++ "." ++ String.mk [d₁, d₂] ∧
      d₁.isDigit ∧ d₂.isDigit := by
  refine ⟨(if round (q * 100) < 0 then "-" else "") ++
      toString ((round (q * 100)).natAbs / 100),
    Nat.digitChar ((round (q * 100)).natAbs / 10 % 10),
    Nat.digitChar ((round (q * 100)).natAbs % 10), rfl, ?_, ?_⟩
  · exact digitChar_isDigit _ (Nat.mod_lt _ (by norm_num))
  · exact digitChar_isDigit _ (Nat.mod_lt _ (by norm_num))

/-- C1 counterexample: with a loader state in which the artifact exists but
cannot be deserialized, `load_model` does not return the `None` signal — the
deserialization exception escapes it. -/
theorem load_model_corrupt_counterexample :
    load_model corruptLoader modelPath = Except.error corruptCause ∧
    ∀ msgs : List Msg,
      load_model corruptLoader modelPath ≠ Except.ok (none, msgs) := by
  refine ⟨rfl, ?_⟩
  intro msgs h
  simp [load_model, corruptLoader] at h

/-- C1 amended: only the Artifact-Missing case is handled. When `joblib.load`
raises `FileNotFoundError`, `load_model` shows a human-readable cause and
returns `None`; when the artifact exists but cannot be deserialized, the
exception escapes `load_model` uncaught. -/
theorem load_model_only_catches_file_not_found
    (jl : String → JoblibResult) (path : String) :
    (jl path = JoblibResult.fileNotFound →
      load_model jl path = Except.ok (none, [Msg.error (fileNotFoundMsg path)])) ∧
    (∀ msg, jl path = JoblibResult.raiseOther msg →
      load_model jl path = Except.error msg) := by
  constructor
  · intro h; simp [load_model, h]
  · intro msg h; simp [load_model, h]

/-- Witness for the amended C1, at the two concrete loader states. -/
theorem load_model_only_catches_file_not_found_witness :
    load_model missingLoader modelPath =
      Except.ok (none, [Msg.error (fileNotFoundMsg modelPath)]) ∧
    load_model corruptLoader modelPath = Except.error corruptCause :=
  ⟨(load_model_only_catches_file_not_found missingLoader modelPath).1 rfl,
   (load_model_only_catches_file_not_found corruptLoader modelPath).2
     corruptCause rfl⟩

/-- C2: when the handle is absent, the flow short-circuits to the warning
state — whatever the button state and the slider values, the output is the
single warning and no predictor is ever consulted (there is none to call). -/
theorem absent_model_short_circuits (buttonPressed : Bool) (p f t : Int) :
    predictionFlow none buttonPressed p f t = [Msg.warning noModelWarning] := rfl

/-- C3: with a present handle, if the inference call raises any error, the
invocation boundary converts it into a single reported error message that
carries the underlying cause; `predictionFlow` is total, so nothing
propagates past the boundary. -/
theorem inference_error_reported (m : Model) (p f t : Int) (e : String)
    (h : m (df_input p f t) = Except.error e) :
    predictionFlow (some m) true p f t = [Msg.error (predErrHead ++ e)] := by
  simp [predictionFlow, tryPredict, h]

/-- Witness for C3: a handle whose inference call raises. -/
theorem inference_error_reported_witness :
    predictionFlow (some failModel) true 0 300 130 =
      [Msg.error (predErrHead ++ inferenceFault)] :=
  inference_error_reported failModel 0 300 130 inferenceFault rfl

/-- C9: on every invocation the input frame's column names are the fixed
constants, in that order, bound to the pressure, flow and temperature inputs
respectively; they depend on nothing. -/
theorem df_input_column_names (p f t : Int) :
    (df_input p f t).map Column.name = [pressureCol, flowCol, tempCol] ∧
    pressureCol = "PressureC1_diff" ∧ flowCol = "FlowC1" ∧ tempCol = "Temp1" ∧
    (df_input p f t).map Column.values = [[p], [f], [t]] :=
  ⟨rfl, rfl, rfl, rfl, rfl⟩

/-- C4: with a present handle and the button pressed, the invoker builds the
one-row frame with exactly the three fields under their trained names, passes
it to the handle, and displays the first scalar of the returned sequence. -/
theorem invocation_displays_first_scalar (m : Model) (p f t : Int)
    (vals : List ℚ) (v : ℚ)
    (h₁ : m (df_input p f t) = Except.ok vals) (h₂ : vals.get? 0 = some v) :
    (df_input p f t).map Column.name = ["PressureC1_diff", "FlowC1", "Temp1"] ∧
    (df_input p f t).map Column.values = [[p], [f], [t]] ∧
    predictionFlow (some m) true p f t =
      [Msg.subheader resultHeader, Msg.success (successMsg v), Msg.info infoText] := by
  refine ⟨rfl, rfl, ?_⟩
  rw [List.get?_eq_getElem?] at h₂
  simp [predictionFlow, tryPredict, h₁, h₂]

/-- Witness for C4: the constant handle at the default slider values. -/
theorem invocation_displays_first_scalar_witness :
    (df_input 0 300 130).map Column.name = ["PressureC1_diff", "FlowC1", "Temp1"] ∧
    (df_input 0 300 130).map Column.values = [[0], [300], [130]] ∧
    predictionFlow (some constModel) true 0 300 130 =
      [Msg.subheader resultHeader, Msg.success (successMsg ((853 : ℚ) / 10)),
        Msg.info infoText] :=
  invocation_displays_first_scalar constModel 0 300 130 [(853 : ℚ) / 10]
    ((853 : ℚ) / 10) rfl rfl

/-- C5: for any slider values inside the declared ranges and a handle whose
inference call succeeds with a nonempty sequence, the values reach the handle
unclamped and unvalidated, and the invocation completes with the success
display — no exception escapes and no validation layer rejects. -/
theorem in_range_inputs_predict (m : Model) (p f t : Int) (v : ℚ) (rest : List ℚ)
    (hp₁ : -50 ≤ p) (hp₂ : p ≤ 50) (hf₁ : 100 ≤ f) (hf₂ : f ≤ 500)
    (ht₁ : 100 ≤ t) (ht₂ : t ≤ 200)
    (h : m (df_input p f t) = Except.ok (v :: rest)) :
    (df_input p f t).map Column.values = [[p], [f], [t]] ∧
    predictionFlow (some m) true p f t =
      [Msg.subheader resultHeader, Msg.success (successMsg v), Msg.info infoText] := by
  refine ⟨rfl, ?_⟩
  simp [predictionFlow, tryPredict, h]

/-- Witness for C5 at the extreme boundary combination pressure = -50,
flow = 100, temperature = 200. -/
theorem in_range_inputs_predict_witness :
    ((-50 : Int) ≤ -50 ∧ (-50 : Int) ≤ 50 ∧ (100 : Int) ≤ 100 ∧ (100 : Int) ≤ 500 ∧
      (100 : Int) ≤ 200 ∧ (200 : Int) ≤ 200) ∧
    (df_input (-50) 100 200).map Column.values = [[-50], [100], [200]] ∧
    predictionFlow (some constModel) true (-50) 100 200 =
      [Msg.subheader resultHeader, Msg.success (successMsg ((853 : ℚ) / 10)),
        Msg.info infoText] :=
  ⟨by decide,
   in_range_inputs_predict constModel (-50) 100 200 ((853 : ℚ) / 10) []
     (by decide) (by decide) (by decide) (by decide) (by decide) (by decide) rfl⟩

/-- C6: every successful invocation displays the predicted scalar as a
percentage string with exactly two digits after the decimal point. -/
theorem success_formats_two_decimals (m : Model) (p f t : Int) (v : ℚ)
    (rest : List ℚ) (h : m (df_input p f t) = Except.ok (v :: rest)) :
    ∃ intStr d₁ d₂,
      predictionFlow (some m) true p f t =
        [Msg.subheader resultHeader,
          Msg.success (successHead ++ (intStr ++ "." ++ String.mk [d₁, d₂]) ++ percentTail),
          Msg.info infoText] ∧
      d₁.isDigit ∧ d₂.isDigit := by
  obtain ⟨intStr, d₁, d₂, hfmt, hd₁, hd₂⟩ := pyFormat2f_shape v
  refine ⟨intStr, d₁, d₂, ?_, hd₁, hd₂⟩
  simp [predictionFlow, tryPredict, h, successMsg, hfmt]

/-- Witness for C6: scenario 1, the default slider values with a working
handle. -/
theorem success_formats_two_decimals_witness :
    ∃ intStr d₁ d₂,
      predictionFlow (some constModel) true 0 300 130 =
        [Msg.subheader resultHeader,
          Msg.success (successHead ++ (intStr ++ "." ++ String.mk [d₁, d₂]) ++ percentTail),
          Msg.info infoText] ∧
      d₁.isDigit ∧ d₂.isDigit :=
  success_formats_two_decimals constModel 0 300 130 ((853 : ℚ) / 10) [] rfl

/-- Once the cache holds a value, further requests return it, never rerun the
underlying function, and never evict it. -/
theorem runLoads_full_cache {α : Type} (f : String → α) (path : String)
    (n : Nat) (r : α) :
    runLoads f path n (some r) = (List.replicate n r, some r, 0) := by
  induction n with
  | zero => rfl
  | succ k ih => simp [runLoads, cachedCall, ih, List.replicate]

/-- C7: however many load requests the process makes (here `n + 1` of them),
the loader body runs exactly once, every request returns the value of that
single run, and the cache still holds it at the end — no eviction, no
invalidation, no re-deserialization. -/
theorem cached_load_runs_once (jl : String → JoblibResult) (n : Nat) :
    (runLoads (load_model jl) modelPath (n + 1) none).1 =
      List.replicate (n + 1) (load_model jl modelPath) ∧
    (runLoads (load_model jl) modelPath (n + 1) none).2.1 =
      some (load_model jl modelPath) ∧
    (runLoads (load_model jl) modelPath (n + 1) none).2.2 = 1 := by
  simp [runLoads, cachedCall, runLoads_full_cache, List.replicate]

/-- C8: with a fixed handle and a fixed input triple, a repeated invocation
of the flow produces exactly the output of the first one — the step reads
nothing from the session but the handle and the inputs. -/
theorem invocation_deterministic (model : Option Model) (p f t : Int)
    (s : Session) :
    (runInvocation model p f t (runInvocation model p f t s).1).2 =
      (runInvocation model p f t s).2 := rfl

/-- C10: if the handle's predict returns the empty sequence, the indexing of
element 0 fails inside the guarded block, so a formatted error message is
reported and no success result is displayed. -/
theorem empty_result_reports_error (m : Model) (p f t : Int)
    (h : m (df_input p f t) = Except.ok []) :
    predictionFlow (some m) true p f t =
      [Msg.subheader resultHeader, Msg.error (predErrHead ++ indexErrorMsg)] ∧
    ∀ s, Msg.success s ∉ predictionFlow (some m) true p f t := by
  have hflow : predictionFlow (some m) true p f t =
      [Msg.subheader resultHeader, Msg.error (predErrHead ++ indexErrorMsg)] := by
    simp [predictionFlow, tryPredict, h]
  refine ⟨hflow, ?_⟩
  intro s hs
  rw [hflow] at hs
  simp at hs

/-- Witness for C10: the handle that returns the empty sequence. -/
theorem empty_result_reports_error_witness :
    predictionFlow (some emptyModel) true 0 300 130 =
      [Msg.subheader resultHeader, Msg.error (predErrHead ++ indexErrorMsg)] ∧
    ∀ s, Msg.success s ∉ predictionFlow (some emptyModel) true 0 300 130 :=
  empty_result_reports_error emptyModel 0 300 130 rfl
